import Mathlib

/-!
Shallow embedding of the cropJournal anti-fraud and credit-scoring pipeline.

The sources embedded here:
* `services/contentValidation.ts` — content quality scoring;
* `services/creditCalculator.ts`  — credit award calculation;
* `services/audioAnalysis.ts`     — audio heuristic analyzer;
* `services/verification.ts`      — geo / frequency / pattern verifiers and
  the fraud aggregator `verifyActivity`;
* `routes/activities.ts`          — the `POST /log-activity` pipeline.

Database reads (the "user history") are modelled as explicit parameters
holding the query results, since the store is an external collaborator.
JavaScript numbers are modelled as `ℚ` (with `ℝ` only for the Haversine
trigonometry), and JavaScript truthiness checks on numbers and strings are
modelled faithfully (`!x` succeeds on `0` and `""`).
-/

namespace CropJournal

/-- Whether `needle` is a prefix of `hay` (character lists). -/
def isPrefB : List Char → List Char → Bool
  | [], _ => true
  | _ :: _, [] => false
  | a :: as, b :: bs => a == b && isPrefB as bs

/-- Whether `needle` occurs as a contiguous run inside `hay`. -/
def infixB (needle : List Char) : List Char → Bool
  | [] => needle.isEmpty
  | c :: t => isPrefB needle (c :: t) || infixB needle t

/-- JS `haystack.includes(needle)` on strings: substring containment. -/
def strIncludes (haystack needle : String) : Bool :=
  infixB needle.toList haystack.toList

/-- JS `s.toLowerCase()` (ASCII-adequate, as in the source's vocabulary). -/
def jsToLower (s : String) : String :=
  String.mk (s.toList.map Char.toLower)

/-- The number of characters of `s` (JS `s.length` on the source's ASCII
domain). -/
def strLen (s : String) : ℕ :=
  s.toList.length

/-- JS `s.trim()`: strip leading and trailing whitespace. -/
def jsTrim (s : String) : String :=
  String.mk (((s.toList.dropWhile Char.isWhitespace).reverse.dropWhile
    Char.isWhitespace).reverse)

/-- Splits a character list into maximal whitespace-free words; `acc` holds
the (reversed) characters of the word being read. -/
def wordsAux : List Char → List Char → List (List Char)
  | [], acc => if acc.isEmpty then [] else [acc.reverse]
  | c :: t, acc =>
      if c.isWhitespace then
        if acc.isEmpty then wordsAux t [] else acc.reverse :: wordsAux t []
      else wordsAux t (c :: acc)

/-- JS `s.split(/\s+/).filter(w => w.length > 0)`: the non-empty
whitespace-separated words of `s`. -/
def wordsOf (s : String) : List String :=
  (wordsAux s.toList []).map String.mk

/-- JS `s.replace(/\s+/g, ' ')` applied to an already-trimmed string:
whitespace runs collapse to single spaces. -/
def normalizeWS (s : String) : String :=
  String.mk (List.intercalate [' '] (wordsAux s.toList []))

/-! ## contentValidation.ts -/

/-- `FARMING_KEYWORDS` — the fixed farming vocabulary, verbatim from the
source (note that `"irrigation"` appears twice: once under "Activities" and
once under "Water-related"). -/
def FARMING_KEYWORDS : List String :=
  ["crop", "crops", "rice", "wheat", "corn", "maize", "cotton", "sugarcane", "vegetable", "vegetables",
   "fruit", "fruits", "tomato", "potato", "onion", "cabbage", "mango", "banana", "paddy",
   "farming", "farm", "agriculture", "cultivation", "planting", "harvesting", "irrigation", "watering",
   "fertilizer", "fertiliser", "organic", "compost", "manure", "soil", "field", "land", "acre", "acres",
   "hectare", "hectares", "plough", "plow", "sowing", "seeding", "weeding", "pest", "pests", "disease",
   "pesticide", "herbicide", "crop rotation", "organic farming", "sustainable", "sustainability",
   "water", "rainwater", "drip", "sprinkler", "irrigation", "conservation",
   "soil health", "soil testing", "nutrients", "ph", "organic matter",
   "khet", "zameen", "fasal", "beej", "khad", "paani"]

/-- `FILLER_WORDS` from the source. -/
def FILLER_WORDS : List String :=
  ["um", "uh", "er", "ah", "oh", "hello", "hi", "hey", "test", "testing", "yes", "no", "ok", "okay"]

/-- `ACTIVITY_INDICATORS` from the source. -/
def ACTIVITY_INDICATORS : List String :=
  ["did", "done", "applied", "used", "added", "spread", "planted", "sowed", "harvested",
   "irrigated", "watered", "treated", "sprayed", "mixed", "prepared", "cultivated", "rotated"]

/-- `MIN_MEANINGFUL_LENGTH` from the source. -/
def MIN_MEANINGFUL_LENGTH : ℕ := 15

/-- `hasFarmingKeywords`: some vocabulary entry occurs in the lowercased text. -/
def hasFarmingKeywords (text : String) : Bool :=
  FARMING_KEYWORDS.any (fun keyword => strIncludes (jsToLower text) keyword)

/-- `hasActivityIndicators`: some indicator occurs in the lowercased text. -/
def hasActivityIndicators (text : String) : Bool :=
  ACTIVITY_INDICATORS.any (fun indicator => strIncludes (jsToLower text) indicator)

/-- `isOnlyFillerWords`: no words, or every word is a filler word. -/
def isOnlyFillerWords (text : String) : Bool :=
  let words := wordsOf (jsToLower text)
  if words.isEmpty then true
  else words.all (fun word => FILLER_WORDS.contains word)

/-- The regex `/(.)\1{4,}/` test: some character (`.` excludes line
terminators) repeated at least 5 times consecutively. -/
def hasRepeatedCharRun : List Char → Bool
  | c1 :: c2 :: c3 :: c4 :: c5 :: rest =>
      (decide (c1 ≠ '\n' ∧ c1 ≠ '\r' ∧ c1.toNat ≠ 0x2028 ∧ c1.toNat ≠ 0x2029) &&
        (c1 == c2 && c2 == c3 && c3 == c4 && c4 == c5)) ||
      hasRepeatedCharRun (c2 :: c3 :: c4 :: c5 :: rest)
  | _ => false

/-- `isRepeatedContent`: ≥5 words drawn from ≤2 distinct words (the source
guards this behind `words.length >= 3`), or a 5+ repeated-character run. -/
def isRepeatedContent (text : String) : Bool :=
  let words := wordsOf (jsTrim text)
  let wordRepeat :=
    if words.length ≥ 3 then
      (words.dedup.length ≤ 2 && words.length ≥ 5)
    else false
  wordRepeat || hasRepeatedCharRun text.toList

/-- `isTooShort`: length after whitespace normalization below the minimum. -/
def isTooShort (text : String) : Bool :=
  strLen (normalizeWS (jsTrim text)) < MIN_MEANINGFUL_LENGTH

/-- The number of vocabulary entries matched by the text
(`FARMING_KEYWORDS.filter(k => cleaned.toLowerCase().includes(k)).length`). -/
def keywordMatches (cleaned : String) : ℕ :=
  (FARMING_KEYWORDS.filter (fun keyword => strIncludes (jsToLower cleaned) keyword)).length

/-- The farming-keyword component of the quality score (source lines
126–132): `min(keywordMatches * 5, 40)` when some keyword matches, else 0. -/
def farmingKeywordScore (cleaned : String) : ℕ :=
  if hasFarmingKeywords cleaned then min (keywordMatches cleaned * 5) 40 else 0

/-- The vocabulary entries before the first `"irrigation"`. -/
def KW_A : List String :=
  ["crop", "crops", "rice", "wheat", "corn", "maize", "cotton", "sugarcane", "vegetable", "vegetables",
   "fruit", "fruits", "tomato", "potato", "onion", "cabbage", "mango", "banana", "paddy",
   "farming", "farm", "agriculture", "cultivation", "planting", "harvesting"]

/-- The vocabulary entries between the two `"irrigation"` occurrences. -/
def KW_MID : List String :=
  ["watering", "fertilizer", "fertiliser", "organic", "compost", "manure", "soil", "field", "land",
   "acre", "acres", "hectare", "hectares", "plough", "plow", "sowing", "seeding", "weeding",
   "pest", "pests", "disease", "pesticide", "herbicide", "crop rotation", "organic farming",
   "sustainable", "sustainability", "water", "rainwater", "drip", "sprinkler"]

/-- The vocabulary entries after the second `"irrigation"`. -/
def KW_B : List String :=
  ["conservation", "soil health", "soil testing", "nutrients", "ph", "organic matter",
   "khet", "zameen", "fasal", "beej", "khad", "paani"]

/-- Modelled from the spec's words: the distinct keywords of the fixed
farming vocabulary (each keyword once, in first-occurrence order). -/
def DISTINCT_FARMING_KEYWORDS : List String :=
  KW_A ++ "irrigation" :: (KW_MID ++ KW_B)

/-- Modelled from the spec's words: the number of distinct vocabulary
keywords matched by the text. -/
def distinctKeywordMatches (cleaned : String) : ℕ :=
  (DISTINCT_FARMING_KEYWORDS.filter (fun k => strIncludes (jsToLower cleaned) k)).length

/-- The length component of the quality score (source lines 111–124);
`none` models the early `return 0` for texts below the minimum length. -/
def lengthScore (cleaned : String) : Option ℕ :=
  let length := strLen (normalizeWS cleaned)
  if length ≥ 100 then some 30
  else if length ≥ 50 then some 20
  else if length ≥ 30 then some 15
  else if length ≥ MIN_MEANINGFUL_LENGTH then some 10
  else none

/-- `calculateContentQualityScore` from the source: length + keywords +
activity indicators, minus repetition and filler penalties, clamped to
[0,100]. -/
def calculateContentQualityScore (text : String) : ℤ :=
  if text = "" then 0
  else
    let cleaned := jsTrim text
    if strLen cleaned = 0 then 0
    else
      match lengthScore cleaned with
      | none => 0
      | some lscore =>
          let score : ℤ :=
            (lscore : ℤ) + (farmingKeywordScore cleaned : ℤ) +
            (if hasActivityIndicators cleaned then 20 else 0) +
            (if isRepeatedContent cleaned then -30 else 0) +
            (if isOnlyFillerWords cleaned then -50 else 0)
          max 0 (min 100 score)

/-- `isValidFarmingContent` from the source. -/
def isValidFarmingContent (text : String) : Bool :=
  if text = "" then false
  else
    let cleaned := jsTrim text
    if strLen cleaned = 0 then false
    else if isTooShort cleaned then false
    else if isOnlyFillerWords cleaned then false
    else if isRepeatedContent cleaned then false
    else
      let qualityScore := calculateContentQualityScore cleaned
      if qualityScore < 30 then false
      else if ¬hasFarmingKeywords cleaned ∧ ¬hasActivityIndicators cleaned then
        decide (qualityScore ≥ 70)
      else true

/-! ## creditCalculator.ts -/

/-- The `ActivityType` union from the source. -/
inductive ActivityType
  | organic_input | water_conservation | soil_health | pest_management
  | crop_rotation | other
deriving DecidableEq, Repr

/-- `CreditCalculationInput` from the source. -/
structure CreditCalculationInput where
  activity_type : ActivityType
  crop_name : Option String
  area : Option String
  description : String
deriving Repr

/-- `CreditCalculationOptions` from the source (`requireFarmingContent`
defaults to `true` at the destructuring). -/
structure CreditCalculationOptions where
  qualityScore : Option ℚ := none
  requireFarmingContent : Bool := true
deriving Repr

/-- `BASE_CREDITS` table from the source. -/
def BASE_CREDITS : ActivityType → ℚ
  | .organic_input => 50
  | .water_conservation => 40
  | .soil_health => 60
  | .pest_management => 45
  | .crop_rotation => 55
  | .other => 30

/-- `CROP_MULTIPLIERS` entries in source (insertion) order. -/
def CROP_MULTIPLIERS : List (String × ℚ) :=
  [("rice", 1.2), ("wheat", 1.1), ("corn", 1.15), ("cotton", 1.3),
   ("sugarcane", 1.25), ("vegetables", 1.0), ("fruits", 1.1)]

/-- Value of a digit run, as in `parseFloat`'s integer part. -/
def digitsToNat (l : List Char) : ℕ :=
  l.foldl (fun n c => 10 * n + (c.toNat - 48)) 0

/-- First match of the regex `(\d+\.?\d*)` in the character list, as a
rational (`parseFloat` of the matched token); `none` when no digit occurs. -/
def firstNumericToken : List Char → Option ℚ
  | [] => none
  | c :: rest =>
      if c.isDigit then
        let intDigits := (c :: rest).takeWhile Char.isDigit
        let afterInt := (c :: rest).dropWhile Char.isDigit
        let fracDigits :=
          match afterInt with
          | '.' :: r => r.takeWhile Char.isDigit
          | _ => []
        some ((digitsToNat intDigits : ℚ) +
          (digitsToNat fracDigits : ℚ) / 10 ^ fracDigits.length)
      else firstNumericToken rest

/-- `extractAreaValue`: 1 for an absent or empty (falsy) area string, else
the first numeric token, defaulting to 1 when no digits match. -/
def extractAreaValue (area : Option String) : ℚ :=
  match area with
  | none => 1
  | some s => if s = "" then 1 else (firstNumericToken s.toList).getD 1

/-- `getAreaMultiplier`: `min(1 + areaValue * 0.1, 2)`. -/
def getAreaMultiplier (area : Option String) : ℚ :=
  min (1 + extractAreaValue area * 0.1) 2

/-- JS `Math.round`: round half toward positive infinity. -/
def jsRound (q : ℚ) : ℤ := ⌊q + 1 / 2⌋

/-- Crop multiplier lookup: the first table entry whose key is a substring
of the lowercased crop name; 1 when the crop name is absent or falsy or no
entry matches. -/
def cropMultiplierOf (crop_name : Option String) : ℚ :=
  match crop_name with
  | none => 1
  | some c =>
      if c = "" then 1
      else
        match CROP_MULTIPLIERS.find? (fun e => strIncludes (jsToLower c) e.1) with
        | some e => e.2
        | none => 1

/-- `calculateCredits` from the source. -/
def calculateCredits (input : CreditCalculationInput)
    (options : CreditCalculationOptions) : ℤ :=
  let qualityScore := options.qualityScore
  let requireFarmingContent := options.requireFarmingContent
  if qualityScore.any (fun q => decide (q < 30)) then 0
  else if input.activity_type = .other ∧
      qualityScore.any (fun q => decide (q < 50)) = true then 0
  else if input.activity_type = .other ∧ requireFarmingContent = true ∧
      (input.description = "" ∨ strLen (jsTrim input.description) < 15) then 0
  else
    let baseCredits := BASE_CREDITS input.activity_type
    let cropMultiplier := cropMultiplierOf input.crop_name
    let areaMultiplier := getAreaMultiplier input.area
    let credits0 := baseCredits * cropMultiplier * areaMultiplier
    let credits1 :=
      match qualityScore with
      | some q => credits0 * (0.5 + q / 100 * 1.0)
      | none => credits0
    let credits := jsRound credits1
    if credits > 0 ∧
        (qualityScore = none ∨ qualityScore.any (fun q => decide (q ≥ 50)) = true) then
      max credits 5
    else
      max credits 0

/-! ## audioAnalysis.ts -/

/-- `AudioAnalysisResult` from the source. -/
structure AudioAnalysisResult where
  isLive : Bool
  hasBackgroundNoise : Bool
  duration : ℚ
  quality : String
  score : ℕ
  reasons : List String
deriving Repr

/-- `estimateDuration`: file size divided by 12,000 bytes per second. -/
def estimateDuration (fileSizeBytes : ℕ) : ℚ :=
  (fileSizeBytes : ℚ) / 12000

/-- `analyzeAudio` from the source, as a function of the audio file's byte
size (the only attribute the source reads from the file). -/
def analyzeAudio (fileSize : ℕ) : AudioAnalysisResult :=
  let duration := estimateDuration fileSize
  let durScore : ℕ := if duration < 3 then 30 else if duration < 5 then 15 else 0
  let durReasons : List String :=
    if duration < 3 then ["Audio too short, minimum 3 seconds"]
    else if duration < 5 then ["Audio is short, recommended minimum 5 seconds"]
    else []
  let sizeScore : ℕ := if fileSize < 5000 then 30 else if fileSize < 10000 then 10 else 0
  let sizeReasons : List String :=
    if fileSize < 5000 then ["Audio file too small, may be empty or fake"]
    else if fileSize < 10000 then ["Audio file is very small, recording may be too short"]
    else []
  let bytesPerSecond := (fileSize : ℚ) / max duration 1
  let bpsScore : ℕ := if bytesPerSecond < 1000 then 15 else 0
  let bpsReasons : List String :=
    if bytesPerSecond < 1000 then ["Low audio quality detected"] else []
  let score := durScore + sizeScore + bpsScore
  let hasBackgroundNoise := decide (duration > 5 ∧ fileSize > 10000)
  { isLive := hasBackgroundNoise && decide (score < 20)
    hasBackgroundNoise := hasBackgroundNoise
    duration := duration
    quality := if score < 20 then "good" else if score < 40 then "fair" else "poor"
    score := min score 100
    reasons := durReasons ++ sizeReasons ++ bpsReasons }

/-! ## verification.ts -/

/-- `LocationData` from the source. -/
structure LocationData where
  latitude : ℚ
  longitude : ℚ
  accuracy : Option ℚ := none
deriving Repr

/-- `VerificationResult` from the source (scores are sums of natural
increments). -/
structure VerificationResult where
  passed : Bool
  fraudScore : ℕ
  reasons : List String
  flagged : Bool
deriving Repr, DecidableEq

/-- A sub-verifier's result (`{ valid, score, reasons }`). -/
structure SubCheck where
  valid : Bool
  score : ℕ
  reasons : List String
deriving Repr, DecidableEq

/-- `verifyLocation` from the source. `sameLocationRecent` carries the
result of the history query for a submission within 5 minutes and 10
meters (Haversine) of the claim; the JS truthiness test
`!location.latitude || !location.longitude` fires on the value 0. -/
def verifyLocation (location : LocationData) (sameLocationRecent : Bool) : SubCheck :=
  if location.latitude = 0 ∨ location.longitude = 0 then
    ⟨false, 100, ["Location not provided"]⟩
  else
    let accScore : ℕ :=
      if location.accuracy.any (fun a => decide (a > 50)) then 20 else 0
    let accReasons : List String :=
      if location.accuracy.any (fun a => decide (a > 50)) then
        ["Location accuracy is low"] else []
    if location.latitude < -90 ∨ location.latitude > 90 then
      ⟨false, 100, ["Invalid latitude"]⟩
    else if location.longitude < -180 ∨ location.longitude > 180 then
      ⟨false, 100, ["Invalid longitude"]⟩
    else
      let dupScore : ℕ := if sameLocationRecent then 15 else 0
      let dupReasons : List String :=
        if sameLocationRecent then
          ["Same location used for multiple activities recently"] else []
      ⟨true, accScore + dupScore, accReasons ++ dupReasons⟩

/-- Results of the history-store queries `verifyTimestampAndFrequency`
performs. -/
structure FrequencyEnv where
  recentSameTypeExists : Bool
  dailyCount : ℕ
  rapidCount : ℕ
deriving Repr

/-- `verifyTimestampAndFrequency` from the source. -/
def verifyTimestampAndFrequency (env : FrequencyEnv) : SubCheck :=
  let dupScore : ℕ := if env.recentSameTypeExists then 30 else 0
  let dupReasons : List String :=
    if env.recentSameTypeExists then ["Same activity type logged within 1 hour"] else []
  let dailyScore : ℕ :=
    if env.dailyCount ≥ 10 then 25 else if env.dailyCount ≥ 8 then 10 else 0
  let dailyReasons : List String :=
    if env.dailyCount ≥ 10 then ["Too many activities today"]
    else if env.dailyCount ≥ 8 then ["High activity count today"] else []
  let rapidScore : ℕ := if env.rapidCount ≥ 5 then 40 else 0
  let rapidReasons : List String :=
    if env.rapidCount ≥ 5 then ["Suspicious: activities in last 10 minutes"] else []
  let score := dupScore + dailyScore + rapidScore
  ⟨decide (score < 50), score, dupReasons ++ dailyReasons ++ rapidReasons⟩

/-- One row of the (up to 50) most recent history records fetched by
`verifyActivityPattern`. -/
structure HistActivity where
  activity_type : String
  crop_name : Option String
deriving Repr, DecidableEq

/-- `verifyActivityPattern` from the source; `userActivities` carries the
history query result. The crop branch is guarded by JS truthiness on
`cropName` (absent or empty string skips it). -/
def verifyActivityPattern (userActivities : List HistActivity)
    (activityType : String) (cropName : Option String) : SubCheck :=
  if userActivities.isEmpty then ⟨true, 0, []⟩
  else
    let typeCount := (userActivities.filter (fun a => a.activity_type = activityType)).length
    let totalCount := userActivities.length
    let typePercentage : ℚ := ((typeCount : ℚ) / (totalCount : ℚ)) * 100
    let typeScore : ℕ := if totalCount > 10 ∧ typePercentage < 5 then 15 else 0
    let typeReasons : List String :=
      if totalCount > 10 ∧ typePercentage < 5 then ["Unusual activity type for this user"] else []
    let cropHit : Bool :=
      match cropName with
      | none => false
      | some c =>
          if c = "" then false
          else
            decide ((userActivities.filter (fun a => a.crop_name = some c)).length = 0 ∧
              totalCount > 5)
    let cropScore : ℕ := if cropHit then 10 else 0
    let cropReasons : List String :=
      if cropHit then ["New crop not seen in user history"] else []
    let score := typeScore + cropScore
    ⟨decide (score < 30), score, typeReasons ++ cropReasons⟩

/-- JS `Math.atan2`. -/
noncomputable def atan2 (y x : ℝ) : ℝ :=
  if 0 < x then Real.arctan (y / x)
  else if x < 0 then
    (if 0 ≤ y then Real.arctan (y / x) + Real.pi else Real.arctan (y / x) - Real.pi)
  else if 0 < y then Real.pi / 2
  else if y < 0 then -(Real.pi / 2)
  else 0

/-- The `a` intermediate of the source's Haversine `calculateDistance`. -/
noncomputable def haversineA (lat1 lon1 lat2 lon2 : ℝ) : ℝ :=
  Real.sin ((lat2 - lat1) * Real.pi / 180 / 2) * Real.sin ((lat2 - lat1) * Real.pi / 180 / 2) +
    Real.cos (lat1 * Real.pi / 180) * Real.cos (lat2 * Real.pi / 180) *
      Real.sin ((lon2 - lon1) * Real.pi / 180 / 2) * Real.sin ((lon2 - lon1) * Real.pi / 180 / 2)

/-- `calculateDistance` from the source: Haversine distance in meters on a
6,371,000 m Earth radius. -/
noncomputable def calculateDistance (lat1 lon1 lat2 lon2 : ℝ) : ℝ :=
  6371e3 *
    (2 * atan2 (Real.sqrt (haversineA lat1 lon1 lat2 lon2))
      (Real.sqrt (1 - haversineA lat1 lon1 lat2 lon2)))

/-- The history-store context of one `verifyActivity` run. -/
structure VerificationEnv where
  sameLocationRecent : Bool
  frequency : FrequencyEnv
  userActivities : List HistActivity
deriving Repr

/-- The location contribution inside `verifyActivity` (source lines
234–242): the GeoVerifier result when a location is given, a flat +10 with
reason `"No location provided"` otherwise. -/
def locationContribution (env : VerificationEnv) (location : Option LocationData) :
    ℕ × List String :=
  match location with
  | some l =>
      let locationCheck := verifyLocation l env.sameLocationRecent
      (locationCheck.score, locationCheck.reasons)
  | none => (10, ["No location provided"])

/-- `verifyActivity` from the source: sums the sub-scores, concatenates the
reason lists, then derives `passed`, `flagged`, and the clamped
`fraudScore`. -/
def verifyActivity (env : VerificationEnv) (activityType : String)
    (cropName : Option String) (location : Option LocationData) : VerificationResult :=
  let loc := locationContribution env location
  let timeCheck := verifyTimestampAndFrequency env.frequency
  let patternCheck := verifyActivityPattern env.userActivities activityType cropName
  let totalScore := loc.1 + timeCheck.score + patternCheck.score
  let allReasons := loc.2 ++ timeCheck.reasons ++ patternCheck.reasons
  { passed := decide (totalScore < 50)
    fraudScore := min totalScore 100
    reasons := allReasons
    flagged := decide (totalScore ≥ 30) || decide (allReasons.length ≥ 3) }

/-! ## routes/activities.ts — the `POST /log-activity` pipeline

External collaborators (transcription, NLP extraction) are modelled as
inputs: `rawText` is the description or the transcription the pipeline
works on, `extracted` the structured record produced by extraction (after
manual overrides), and `extractionValid` the `isValidFarmingExtraction`
verdict. -/

/-- The string form of an activity type, as stored in history records. -/
def ActivityType.asString : ActivityType → String
  | .organic_input => "organic_input"
  | .water_conservation => "water_conservation"
  | .soil_health => "soil_health"
  | .pest_management => "pest_management"
  | .crop_rotation => "crop_rotation"
  | .other => "other"

/-- The verification-relevant fields of the record the route persists. -/
structure PersistedActivity where
  verification_status : String
  fraud_score : ℕ
  flagged_for_review : Bool
  credits_earned : ℤ
deriving Repr, DecidableEq

/-- The fraud score after the route adds the audio-analysis score to the
`verifyActivity` result (source: `verificationResult.fraudScore +=
audioAnalysisResult.score`). -/
def aggregateFraudScore (env : VerificationEnv) (activityType : String)
    (cropName : Option String) (location : Option LocationData)
    (audioSize : Option ℕ) : ℕ :=
  (verifyActivity env activityType cropName location).fraudScore +
    ((audioSize.map (fun n => (analyzeAudio n).score)).getD 0)

/-- The `POST /log-activity` pipeline from step 2 (audio analysis) through
step 8 (persistence): audio short-circuit at score ≥ 60, content-quality
gates, extraction gate, `verifyActivity`, audio score addition, the ≥ 70
fraud rejection, credit calculation with its zero gate, and finally the
record that is written. `Except.error` models an `AppError` being thrown
(nothing persisted). -/
def logActivity (env : VerificationEnv) (rawText : String)
    (extracted : CreditCalculationInput) (extractionValid : Bool)
    (location : Option LocationData) (audioSize : Option ℕ) :
    Except String PersistedActivity :=
  -- Step 2: audio analysis short-circuit (before transcription)
  if audioSize.any (fun n => decide ((analyzeAudio n).score ≥ 60)) then
    .error "Audio verification failed"
  else if jsTrim rawText = "" then .error "Description or valid audio transcription is required"
  else
    -- Step 3: content quality gates
    let qualityScore := calculateContentQualityScore rawText
    if ¬isValidFarmingContent rawText then
      .error "Please provide a meaningful description of your farming activity"
    -- Step 5: extraction validity gate (extraction itself is external)
    else if ¬extractionValid then
      .error "The provided content does not appear to describe a farming activity"
    else
      -- Step 6: anti-fraud verification, then audio score addition
      let verificationResult := verifyActivity env extracted.activity_type.asString
        extracted.crop_name location
      let finalFraudScore := aggregateFraudScore env extracted.activity_type.asString
        extracted.crop_name location audioSize
      if finalFraudScore ≥ 70 then .error "Activity verification failed"
      else
        -- Step 7: credit calculation and its zero gate
        let creditsEarned := calculateCredits extracted
          ⟨some (qualityScore : ℚ), true⟩
        if creditsEarned = 0 then .error "Unable to award credits"
        else
          -- Step 8: the persisted record
          .ok
            { verification_status :=
                if verificationResult.flagged then "flagged"
                else if verificationResult.passed then "verified"
                else "pending"
              fraud_score := finalFraudScore
              flagged_for_review := verificationResult.flagged
              credits_earned := creditsEarned }

/-! ## Concrete scenarios shared by the theorems below -/

/-- A history context in which every store query comes back empty. -/
def cleanEnv : VerificationEnv := ⟨false, ⟨false, 0, 0⟩, []⟩

/-- A history context scoring 30 (duplicate type) + 40 (rapid fire) = 70. -/
def busyEnv : VerificationEnv := ⟨false, ⟨true, 0, 5⟩, []⟩

/-- A well-formed claimed location with good accuracy. -/
def goodLocation : LocationData := ⟨20, 77, some 10⟩

/-- A location with latitude 91, outside the valid range. -/
def badLatLocation : LocationData := ⟨91, 10, none⟩

/-- A submission text that passes the content gates with quality score 55. -/
def goodText : String := "Applied organic compost to the rice field today"

/-- An extraction result for a soil-health activity on 2 acres of rice. -/
def riceExtraction : CreditCalculationInput :=
  ⟨.soil_health, some "rice", some "2 acres", "Applied organic compost"⟩

/-! ## Theorems -/

/-- Claim C3 (code bug evidence): the claimed location (latitude 0,
longitude 77) lies within the valid latitude/longitude ranges, yet
`verifyLocation` returns the hard-invalid outcome (valid = false,
score 100), because the JS provided-check `!location.latitude` fires on
the falsy value 0. -/
theorem verifyLocation_equator_hits_invalid_branch :
    (verifyLocation ⟨0, 77, none⟩ false).valid = false ∧
    (verifyLocation ⟨0, 77, none⟩ false).score = 100 ∧
    (verifyLocation ⟨0, 77, none⟩ false).reasons = ["Location not provided"] ∧
    ((-90 : ℚ) ≤ 0 ∧ (0 : ℚ) ≤ 90 ∧ (-180 : ℚ) ≤ 77 ∧ (77 : ℚ) ≤ 180) := by
  refine ⟨rfl, rfl, rfl, ?_⟩
  norm_num

/-- The area string "2 acres" parses to 2, giving multiplier
min(1 + 0.2, 2) = 1.2. -/
theorem getAreaMultiplier_two_acres : getAreaMultiplier (some "2 acres") = 1.2 := by
  unfold getAreaMultiplier
  have h : extractAreaValue (some "2 acres") =
      (digitsToNat ['2'] : ℚ) + (digitsToNat [] : ℚ) / 10 ^ (0 : ℕ) := rfl
  have h2 : digitsToNat ['2'] = 2 := rfl
  have h0 : digitsToNat [] = 0 := rfl
  rw [h, h2, h0]
  norm_num [min_def]

/-- The crop "rice" matches the first multiplier-table entry, 1.2. -/
theorem cropMultiplierOf_rice : cropMultiplierOf (some "rice") = 1.2 := rfl

/-- Claim C6: `calculateCredits` on category soil_health, crop "rice",
area "2 acres" and quality score 90 yields exactly 121 credits
(60 × 1.2 × 1.2 × 1.4 = 120.96, rounded to 121; the floor of 5 does not
bind), for every description. -/
theorem calculateCredits_rice_two_acres_quality_ninety (d : String) :
    calculateCredits ⟨.soil_health, some "rice", some "2 acres", d⟩ ⟨some 90, true⟩ = 121 := by
  unfold calculateCredits
  norm_num [Option.any_some, BASE_CREDITS, cropMultiplierOf_rice,
    getAreaMultiplier_two_acres, jsRound]
  exact fun h => nomatch h

/-- The estimated duration is below 3 s exactly for files under 36,000
bytes. -/
theorem estimateDuration_lt_three (n : ℕ) : (estimateDuration n < 3) ↔ n < 36000 := by
  unfold estimateDuration
  rw [div_lt_iff₀ (by norm_num)]
  norm_cast

/-- The estimated duration is below 5 s exactly for files under 60,000
bytes. -/
theorem estimateDuration_lt_five (n : ℕ) : (estimateDuration n < 5) ↔ n < 60000 := by
  unfold estimateDuration
  rw [div_lt_iff₀ (by norm_num)]
  norm_cast

/-- The bytes-per-second ratio is below 1,000 exactly for files under
1,000 bytes (for larger files either the denominator is clamped to 1, or
the ratio collapses to the constant 12,000). -/
theorem bytesPerSecond_lt_iff (n : ℕ) :
    ((n : ℚ) / max (estimateDuration n) 1 < 1000) ↔ n < 1000 := by
  unfold estimateDuration
  rcases le_total ((n : ℚ) / 12000) 1 with h | h
  · rw [max_eq_right h, div_one]
    norm_cast
  · rw [max_eq_left h]
    have h12 : (12000 : ℚ) ≤ (n : ℚ) := by
      rwa [le_div_iff₀ (by norm_num), one_mul] at h
    have hn : (n : ℚ) ≠ 0 := by positivity
    have hq : (n : ℚ) / ((n : ℚ) / 12000) = 12000 := by field_simp
    rw [hq]
    have h12n : 12000 ≤ n := by exact_mod_cast h12
    constructor
    · intro hc; norm_num at hc
    · intro hc; omega

/-- The audio score as a function of the byte size, with all thresholds
expressed on the size. -/
theorem analyzeAudio_score_eq (n : ℕ) :
    (analyzeAudio n).score =
      min ((if n < 36000 then 30 else if n < 60000 then 15 else 0) +
        (if n < 5000 then 30 else if n < 10000 then 10 else 0) +
        (if n < 1000 then 15 else 0)) 100 := by
  unfold analyzeAudio
  simp only [estimateDuration_lt_three, estimateDuration_lt_five, bytesPerSecond_lt_iff]

/-- Claim C8: the audio analyzer's score (a function of byte size alone,
with duration estimated as size/12000) reaches the pipeline's
pre-transcription rejection threshold of 60 exactly when the file is
smaller than 5,000 bytes. -/
theorem analyzeAudio_score_ge_sixty_iff (n : ℕ) :
    60 ≤ (analyzeAudio n).score ↔ n < 5000 := by
  rw [analyzeAudio_score_eq]
  split_ifs <;> omega

/-- The Haversine `a` term vanishes between a point and itself. -/
theorem haversineA_self (lat lon : ℝ) : haversineA lat lon lat lon = 0 := by
  unfold haversineA
  have e1 : (lat - lat) * Real.pi / 180 / 2 = 0 := by ring
  have e2 : (lon - lon) * Real.pi / 180 / 2 = 0 := by ring
  rw [e1, e2, Real.sin_zero]
  ring

/-- The Haversine `a` term is symmetric in its two points. -/
theorem haversineA_symm (lat1 lon1 lat2 lon2 : ℝ) :
    haversineA lat1 lon1 lat2 lon2 = haversineA lat2 lon2 lat1 lon1 := by
  unfold haversineA
  have e1 : (lat1 - lat2) * Real.pi / 180 / 2 = -((lat2 - lat1) * Real.pi / 180 / 2) := by
    ring
  have e2 : (lon1 - lon2) * Real.pi / 180 / 2 = -((lon2 - lon1) * Real.pi / 180 / 2) := by
    ring
  rw [e1, e2]
  simp only [Real.sin_neg]
  ring

/-- `Math.atan2 0 1 = 0`. -/
theorem atan2_zero_one : atan2 0 1 = 0 := by
  unfold atan2
  norm_num [Real.arctan_zero]

/-- Claim C7: the Haversine `calculateDistance` satisfies d(A,A) = 0 for
every point A and is symmetric, d(A,B) = d(B,A), for all points A, B. -/
theorem calculateDistance_self_and_symm :
    (∀ lat lon : ℝ, calculateDistance lat lon lat lon = 0) ∧
    (∀ lat1 lon1 lat2 lon2 : ℝ,
      calculateDistance lat1 lon1 lat2 lon2 = calculateDistance lat2 lon2 lat1 lon1) := by
  constructor
  · intro lat lon
    unfold calculateDistance
    rw [haversineA_self, Real.sqrt_zero]
    norm_num [atan2_zero_one]
  · intro lat1 lon1 lat2 lon2
    unfold calculateDistance
    rw [haversineA_symm]

/-- The source vocabulary splits around its two `"irrigation"` entries. -/
theorem farming_keywords_split :
    FARMING_KEYWORDS = KW_A ++ "irrigation" :: (KW_MID ++ "irrigation" :: KW_B) := rfl

/-- The spec-side distinct vocabulary has no duplicates. -/
theorem distinct_farming_keywords_nodup : DISTINCT_FARMING_KEYWORDS.Nodup := by decide

/-- The source's match count exceeds the distinct match count by exactly
one whenever the text contains "irrigation", because that keyword is
listed twice. -/
theorem keywordMatches_eq_distinct_plus_irrigation (t : String) :
    keywordMatches t = distinctKeywordMatches t +
      (if strIncludes (jsToLower t) "irrigation" then 1 else 0) := by
  unfold keywordMatches distinctKeywordMatches
  rw [farming_keywords_split]
  by_cases hirr : strIncludes (jsToLower t) "irrigation" <;>
    simp [hirr, List.filter_append, List.filter_cons, DISTINCT_FARMING_KEYWORDS]
  omega

/-- A text matching no vocabulary entry has match count 0. -/
theorem keywordMatches_of_no_keywords (t : String)
    (h : hasFarmingKeywords t = false) : keywordMatches t = 0 := by
  unfold hasFarmingKeywords at h
  unfold keywordMatches
  simp only [List.any_eq_false] at h
  simp [List.length_eq_zero, List.filter_eq_nil_iff]
  intro a ha
  simpa using h a ha

/-- Claim C5 (counterexample): on the text "irrigation of the canal" the
keyword component contributes 10 points although only one distinct
keyword ("irrigation") matches — not the claimed 5 per distinct
keyword. -/
theorem farmingKeywordScore_not_distinct_counterexample :
    farmingKeywordScore "irrigation of the canal" = 10 ∧
    distinctKeywordMatches "irrigation of the canal" = 1 ∧
    farmingKeywordScore "irrigation of the canal" ≠
      min (distinctKeywordMatches "irrigation of the canal" * 5) 40 := by
  decide

/-- Claim C5 (amended): the keyword component contributes 5 points per
matched entry of the vocabulary list — which counts "irrigation" twice —
capped at 40: it equals min(5 × (distinct matches + 1 if the text
contains "irrigation"), 40). -/
theorem farmingKeywordScore_eq_amended (t : String) :
    farmingKeywordScore t =
      min ((distinctKeywordMatches t +
        (if strIncludes (jsToLower t) "irrigation" then 1 else 0)) * 5) 40 := by
  have hrel := keywordMatches_eq_distinct_plus_irrigation t
  unfold farmingKeywordScore
  by_cases h : hasFarmingKeywords t = true
  · rw [if_pos h, hrel]
  · rw [if_neg h]
    have hm : keywordMatches t = 0 := keywordMatches_of_no_keywords t (by simpa using h)
    rw [hm] at hrel
    omega

/-- Claim C10: `verifyActivityPattern` always reports valid = true: its
score is at most 15 + 10 = 25, strictly below its validity threshold
of 30. -/
theorem verifyActivityPattern_always_valid (userActivities : List HistActivity)
    (activityType : String) (cropName : Option String) :
    (verifyActivityPattern userActivities activityType cropName).valid = true := by
  unfold verifyActivityPattern
  split
  · rfl
  · dsimp only
    split_ifs <;> simp

/-! ## Component evaluations on the concrete scenarios -/

/-- A 5,000-byte audio file scores 30 (short duration) + 10 (small file). -/
theorem analyzeAudio_score_5000 : (analyzeAudio 5000).score = 40 := by
  rw [analyzeAudio_score_eq]; norm_num

/-- The scenario text scores 15 (length) + 20 (4 keywords) + 20
(indicator "applied") = 55. -/
theorem contentQualityScore_goodText : calculateContentQualityScore goodText = 55 := by
  decide

/-- The scenario text passes the content-validity gate. -/
theorem isValidFarmingContent_goodText : isValidFarmingContent goodText = true := by
  decide

/-- The scenario text does not trim to the empty string. -/
theorem jsTrim_goodText_nonempty : ¬(jsTrim goodText = "") := by decide

/-- Credits for the rice extraction under quality 55:
60 × 1.2 × 1.2 × 1.05 = 90.72, rounded to 91. -/
theorem calculateCredits_quality55 :
    calculateCredits riceExtraction ⟨some (55 : ℚ), true⟩ = 91 := by
  unfold calculateCredits
  norm_num [Option.any_some, BASE_CREDITS, riceExtraction, cropMultiplierOf_rice,
    getAreaMultiplier_two_acres, jsRound]
  exact fun h => nomatch h

/-- The credits the pipeline computes for the scenario text and the rice
extraction. -/
theorem calculateCredits_goodText : calculateCredits riceExtraction
    ⟨some ((calculateContentQualityScore goodText : ℤ) : ℚ), true⟩ = 91 := by
  rw [contentQualityScore_goodText]
  have h : ((55 : ℤ) : ℚ) = (55 : ℚ) := by norm_num
  rw [h]
  exact calculateCredits_quality55

/-- The rice extraction's activity type. -/
theorem riceExtraction_activity_type :
    riceExtraction.activity_type = ActivityType.soil_health := rfl

/-- The rice extraction's crop name. -/
theorem riceExtraction_crop_name : riceExtraction.crop_name = some "rice" := rfl

/-- Verification with empty history and no location: +10 with one reason. -/
theorem verifyActivity_clean_noLocation :
    verifyActivity cleanEnv "soil_health" (some "rice") none =
      ⟨true, 10, ["No location provided"], false⟩ := rfl

/-- Verification with empty history and a good location: score 0. -/
theorem verifyActivity_clean_goodLocation :
    verifyActivity cleanEnv "soil_health" (some "rice") (some goodLocation) =
      ⟨true, 0, [], false⟩ := by decide

/-- Verification with empty history and latitude 91: the invalid-latitude
branch contributes 100. -/
theorem verifyActivity_clean_badLat :
    verifyActivity cleanEnv "soil_health" (some "rice") (some badLatLocation) =
      ⟨false, 100, ["Invalid latitude"], true⟩ := by decide

/-- A full pipeline run: no location (+10), clean history, 5,000-byte
audio (+40): aggregate 50, persisted as verified and unflagged with 91
credits. -/
theorem logActivity_audio_noLocation_run :
    logActivity cleanEnv goodText riceExtraction true none (some 5000) =
      .ok ⟨"verified", 50, false, 91⟩ := by
  unfold logActivity
  simp only [Option.any_some, analyzeAudio_score_5000, isValidFarmingContent_goodText,
    aggregateFraudScore, riceExtraction_activity_type, riceExtraction_crop_name,
    ActivityType.asString, verifyActivity_clean_noLocation, Option.map_some',
    Option.getD_some, Bool.not_true, decide_eq_true_eq]
  norm_num [calculateCredits_goodText, jsTrim_goodText_nonempty]

/-- A full pipeline run: good location, clean history, no audio:
aggregate 0, persisted as verified with 91 credits. -/
theorem logActivity_clean_location_run :
    logActivity cleanEnv goodText riceExtraction true (some goodLocation) none =
      .ok ⟨"verified", 0, false, 91⟩ := by
  unfold logActivity
  simp only [Option.any_none, aggregateFraudScore, riceExtraction_activity_type,
    riceExtraction_crop_name, ActivityType.asString, verifyActivity_clean_goodLocation,
    Option.map_none', Option.getD_none, isValidFarmingContent_goodText,
    Bool.not_true, decide_eq_true_eq]
  norm_num [calculateCredits_goodText, jsTrim_goodText_nonempty]

/-! ## Pipeline inversion -/

/-- Inversion of a successful pipeline run: the persisted record's fraud
score is the post-audio aggregate (which passed the < 70 gate), and its
flag and status come from the pre-audio `verifyActivity` result. -/
theorem logActivity_ok_inversion (env : VerificationEnv) (rawText : String)
    (extracted : CreditCalculationInput) (exv : Bool) (loc : Option LocationData)
    (audioSize : Option ℕ) (rec : PersistedActivity)
    (h : logActivity env rawText extracted exv loc audioSize = .ok rec) :
    aggregateFraudScore env extracted.activity_type.asString extracted.crop_name
      loc audioSize < 70 ∧
    rec.fraud_score = aggregateFraudScore env extracted.activity_type.asString
      extracted.crop_name loc audioSize ∧
    rec.flagged_for_review = (verifyActivity env extracted.activity_type.asString
      extracted.crop_name loc).flagged ∧
    rec.verification_status =
      (if (verifyActivity env extracted.activity_type.asString extracted.crop_name loc).flagged
        then "flagged"
        else if (verifyActivity env extracted.activity_type.asString extracted.crop_name
            loc).passed
          then "verified" else "pending") := by
  unfold logActivity at h
  split_ifs at h with h1 h2 h3 h4
  simp only [] at h
  split_ifs at h with h5 h6 h7 h8 <;>
      (injection h with h; subst h; refine ⟨by omega, rfl, rfl, ?_⟩) <;>
    simp_all

/-- An unflagged verification result is necessarily passed: its total
score is below 30, hence below the pass threshold of 50. -/
theorem verifyActivity_not_flagged_passed (env : VerificationEnv) (a : String)
    (c : Option String) (loc : Option LocationData)
    (h : (verifyActivity env a c loc).flagged = false) :
    (verifyActivity env a c loc).passed = true := by
  unfold verifyActivity at h ⊢
  simp only [Bool.or_eq_false_iff, decide_eq_false_iff_not, not_le] at h
  simp only [decide_eq_true_eq]
  omega

/-! ## Pipeline claims -/

/-- Claim C1 (counterexample): with an invalid-latitude location (score
100, clamped inside `verifyActivity`) and a 5,000-byte audio file (score
40, below the 60 short-circuit), the outcome's fraud score after the
audio addition is 140 — outside [0,100] — so no clamp is applied after
the audio score is added. -/
theorem aggregate_exceeds_hundred_after_audio :
    aggregateFraudScore cleanEnv "soil_health" (some "rice") (some badLatLocation)
      (some 5000) = 140 ∧
    ¬(aggregateFraudScore cleanEnv "soil_health" (some "rice") (some badLatLocation)
      (some 5000) ≤ 100) ∧
    (analyzeAudio 5000).score < 60 := by
  have h : aggregateFraudScore cleanEnv "soil_health" (some "rice")
      (some badLatLocation) (some 5000) = 140 := by
    unfold aggregateFraudScore
    rw [verifyActivity_clean_badLat]
    simp [analyzeAudio_score_5000]
  exact ⟨h, by omega, by rw [analyzeAudio_score_5000]; norm_num⟩

/-- Claim C1 (amended): the clamp to [0,100] is applied inside the
aggregator before the audio score is added (`verifyActivity`'s fraud
score never exceeds 100); the post-audio total is unclamped, but every
persisted record's fraud score is below the 70 rejection threshold and
hence within [0,100]. -/
theorem persisted_fraudScore_within_bounds :
    (∀ (env : VerificationEnv) (a : String) (c : Option String)
      (loc : Option LocationData), (verifyActivity env a c loc).fraudScore ≤ 100) ∧
    (∀ (env : VerificationEnv) (rawText : String) (extracted : CreditCalculationInput)
      (exv : Bool) (loc : Option LocationData) (audioSize : Option ℕ)
      (rec : PersistedActivity),
      logActivity env rawText extracted exv loc audioSize = .ok rec →
      rec.fraud_score < 70 ∧ rec.fraud_score ≤ 100) := by
  constructor
  · intro env a c loc
    exact min_le_right _ _
  · intro env rawText extracted exv loc audioSize rec h
    obtain ⟨hlt, hfs, -, -⟩ := logActivity_ok_inversion _ _ _ _ _ _ _ h
    omega

/-- Witness for the amended C1 on a concrete persisted run. -/
theorem persisted_fraudScore_within_bounds_witness :
    (⟨"verified", 50, false, 91⟩ : PersistedActivity).fraud_score < 70 ∧
    (⟨"verified", 50, false, 91⟩ : PersistedActivity).fraud_score ≤ 100 :=
  persisted_fraudScore_within_bounds.2 cleanEnv goodText riceExtraction true none
    (some 5000) _ logActivity_audio_noLocation_run

/-- Claim C2 (counterexample): a submission with no location (+10) and a
5,000-byte audio file (+40) is persisted with aggregate fraud score
50 ≥ 30 yet with the flagged bit false — the flag is computed before the
audio score is added. -/
theorem flagged_excludes_audio_counterexample :
    logActivity cleanEnv goodText riceExtraction true none (some 5000) =
      .ok ⟨"verified", 50, false, 91⟩ ∧
    30 ≤ (⟨"verified", 50, false, 91⟩ : PersistedActivity).fraud_score ∧
    (⟨"verified", 50, false, 91⟩ : PersistedActivity).flagged_for_review = false :=
  ⟨logActivity_audio_noLocation_run, by norm_num, rfl⟩

/-- Claim C2 (amended): the persisted flagged bit equals (pre-audio
aggregate ≥ 30) OR (pre-audio reason count ≥ 3), where the pre-audio
aggregate is the location contribution plus the FrequencyGuard score plus
the PatternVerifier score — the audio score and audio reasons are not
part of either test. -/
theorem persisted_flagged_preaudio_formula (env : VerificationEnv) (rawText : String)
    (extracted : CreditCalculationInput) (exv : Bool) (loc : Option LocationData)
    (audioSize : Option ℕ) (rec : PersistedActivity)
    (h : logActivity env rawText extracted exv loc audioSize = .ok rec) :
    rec.flagged_for_review =
      (decide (30 ≤ (locationContribution env loc).1 +
          (verifyTimestampAndFrequency env.frequency).score +
          (verifyActivityPattern env.userActivities extracted.activity_type.asString
            extracted.crop_name).score) ||
       decide (3 ≤ ((locationContribution env loc).2 ++
          (verifyTimestampAndFrequency env.frequency).reasons ++
          (verifyActivityPattern env.userActivities extracted.activity_type.asString
            extracted.crop_name).reasons).length)) := by
  obtain ⟨-, -, hflag, -⟩ := logActivity_ok_inversion _ _ _ _ _ _ _ h
  rw [hflag]
  rfl

/-- Witness for the amended C2 on a concrete persisted run. -/
theorem persisted_flagged_preaudio_formula_witness :
    (⟨"verified", 50, false, 91⟩ : PersistedActivity).flagged_for_review =
      (decide (30 ≤ (locationContribution cleanEnv none).1 +
          (verifyTimestampAndFrequency cleanEnv.frequency).score +
          (verifyActivityPattern cleanEnv.userActivities riceExtraction.activity_type.asString
            riceExtraction.crop_name).score) ||
       decide (3 ≤ ((locationContribution cleanEnv none).2 ++
          (verifyTimestampAndFrequency cleanEnv.frequency).reasons ++
          (verifyActivityPattern cleanEnv.userActivities riceExtraction.activity_type.asString
            riceExtraction.crop_name).reasons).length)) :=
  persisted_flagged_preaudio_formula cleanEnv goodText riceExtraction true none
    (some 5000) _ logActivity_audio_noLocation_run

/-- Claim C4: without audio, a pre-audio fraud score of exactly 70 makes
the ≥ 70 gate fire — the pipeline raises an error and persists nothing —
while any score of 69 or less leaves the gate closed. -/
theorem aggregate_seventy_hard_rejects (env : VerificationEnv) (rawText : String)
    (extracted : CreditCalculationInput) (exv : Bool) (loc : Option LocationData) :
    ((verifyActivity env extracted.activity_type.asString extracted.crop_name
        loc).fraudScore = 70 →
      70 ≤ aggregateFraudScore env extracted.activity_type.asString extracted.crop_name
        loc none ∧
      ∀ rec : PersistedActivity,
        logActivity env rawText extracted exv loc none ≠ .ok rec) ∧
    ((verifyActivity env extracted.activity_type.asString extracted.crop_name
        loc).fraudScore ≤ 69 →
      aggregateFraudScore env extracted.activity_type.asString extracted.crop_name
        loc none < 70) := by
  have hagg : aggregateFraudScore env extracted.activity_type.asString
      extracted.crop_name loc none =
      (verifyActivity env extracted.activity_type.asString extracted.crop_name
        loc).fraudScore := rfl
  constructor
  · intro h70
    constructor
    · omega
    · intro rec hok
      obtain ⟨hlt, -, -, -⟩ := logActivity_ok_inversion _ _ _ _ _ _ _ hok
      omega
  · intro h69
    omega

/-- Witness for C4: a history scoring exactly 70 (duplicate type + rapid
fire) is rejected; the clean history (score 0 ≤ 69) leaves the gate
closed. -/
theorem aggregate_seventy_hard_rejects_witness :
    (70 ≤ aggregateFraudScore busyEnv riceExtraction.activity_type.asString
        riceExtraction.crop_name (some goodLocation) none ∧
      logActivity busyEnv goodText riceExtraction true (some goodLocation) none ≠
        .ok ⟨"verified", 70, false, 91⟩) ∧
    aggregateFraudScore cleanEnv riceExtraction.activity_type.asString
      riceExtraction.crop_name (some goodLocation) none < 70 :=
  ⟨⟨((aggregate_seventy_hard_rejects busyEnv goodText riceExtraction true
        (some goodLocation)).1 (by decide)).1,
    ((aggregate_seventy_hard_rejects busyEnv goodText riceExtraction true
        (some goodLocation)).1 (by decide)).2 _⟩,
   (aggregate_seventy_hard_rejects cleanEnv goodText riceExtraction true
      (some goodLocation)).2 (by decide)⟩

/-- Claim C9: a persisted activity record never has verification status
"pending": whenever `passed` is false (score ≥ 50) the flag bit is
necessarily set (score ≥ 30), so every written record is "verified" or
"flagged". -/
theorem persisted_status_never_pending (env : VerificationEnv) (rawText : String)
    (extracted : CreditCalculationInput) (exv : Bool) (loc : Option LocationData)
    (audioSize : Option ℕ) (rec : PersistedActivity)
    (h : logActivity env rawText extracted exv loc audioSize = .ok rec) :
    rec.verification_status = "verified" ∨ rec.verification_status = "flagged" := by
  obtain ⟨-, -, -, hstat⟩ := logActivity_ok_inversion _ _ _ _ _ _ _ h
  rw [hstat]
  by_cases hf : (verifyActivity env extracted.activity_type.asString extracted.crop_name
      loc).flagged = true
  · rw [if_pos hf]; right; rfl
  · rw [if_neg hf]
    have hp := verifyActivity_not_flagged_passed env extracted.activity_type.asString
      extracted.crop_name loc (by simpa using hf)
    rw [if_pos hp]; left; rfl

/-- Witness for C9 on a concrete persisted run. -/
theorem persisted_status_never_pending_witness :
    (⟨"verified", 0, false, 91⟩ : PersistedActivity).verification_status = "verified" ∨
    (⟨"verified", 0, false, 91⟩ : PersistedActivity).verification_status = "flagged" :=
  persisted_status_never_pending cleanEnv goodText riceExtraction true
    (some goodLocation) none _ logActivity_clean_location_run

end CropJournal
